import Mathlib

set_option maxRecDepth 16384

/-!
Verification development for the OIDC + SSH browser-flow test scripts
(k8s/scripts/tests/test-ssh-oidc-browser.py and
k8s/scripts/tests/test-oidc-browser.py).

The Python scripts are shallowly embedded: Python strings are Lean
strings (operations modelled character-by-character on the underlying
character lists), JSON values produced by json.loads are an inductive
PyVal type, Python dict/attribute errors are modelled with Except, and
the external world (json.loads, subprocess invocations, browser state)
is passed in explicitly as oracles in a Run record.
-/

/-! ## Python string primitives -/

/-- Python str.isspace characters used by strip and split: space (32)
and the control characters tab through carriage return (9 to 13). -/
def pyIsSpace (c : Char) : Bool :=
  c.toNat == 32 || (9 ≤ c.toNat && c.toNat ≤ 13)

/-- Split a character list on every occurrence of a separator character,
keeping empty segments, as Python s.split(sep) does for a 1-character sep. -/
def chSplitChar (sep : Char) : List Char → List (List Char)
  | [] => [[]]
  | c :: rest =>
    let r := chSplitChar sep rest
    if c == sep then [] :: r
    else
      match r with
      | [] => [[c]]
      | g :: gs => (c :: g) :: gs

/-- Helper for whitespace splitting: accumulates the current word reversed. -/
def chWordsAux : List Char → List Char → List (List Char)
  | cur, [] => if cur.isEmpty then [] else [cur.reverse]
  | cur, c :: rest =>
    if pyIsSpace c then
      if cur.isEmpty then chWordsAux [] rest else cur.reverse :: chWordsAux [] rest
    else chWordsAux (c :: cur) rest

/-- Python s.split() with no argument: split on whitespace runs, dropping empties. -/
def chWords (s : List Char) : List (List Char) := chWordsAux [] s

/-- Python str.strip(): drop leading and trailing whitespace. -/
def chTrim (s : List Char) : List Char :=
  ((s.dropWhile pyIsSpace).reverse.dropWhile pyIsSpace).reverse

/-- Substring test: does the needle occur inside the haystack. -/
def chContainsAux (needle : List Char) : List Char → Bool
  | [] => needle.isEmpty
  | c :: rest => needle.isPrefixOf (c :: rest) || chContainsAux needle rest

/-- Python membership test needle in hay for strings. -/
def pyInStr (needle hay : String) : Bool := chContainsAux needle.data hay.data

/-- Python str.lower (ASCII). -/
def pyLower (s : String) : String := ⟨s.data.map Char.toLower⟩

/-- Python str.strip on Lean strings. -/
def pyStrip (s : String) : String := ⟨chTrim s.data⟩

/-- Python s.split(sep) for a single-character separator. -/
def pySplitChar (sep : Char) (s : String) : List String :=
  (chSplitChar sep s.data).map (fun l => ⟨l⟩)

/-- Python s.split() with no argument. -/
def pyWords (s : String) : List String := (chWords s.data).map (fun l => ⟨l⟩)

/-- Python s.startswith(pre). -/
def pyStartsWith (s pre : String) : Bool := pre.data.isPrefixOf s.data

/-- The text after the first occurrence of a marker, when the marker occurs. -/
def chAfterFirst (needle : List Char) : List Char → Option (List Char)
  | [] => if needle.isEmpty then some [] else none
  | c :: rest =>
    if needle.isPrefixOf (c :: rest) then some ((c :: rest).drop needle.length)
    else chAfterFirst needle rest

/-- Split at the first occurrence of a separator character, as Python
s.split(sep, 1); none when the separator does not occur. -/
def chSplitFirst (sep : Char) : List Char → Option (List Char × List Char)
  | [] => none
  | c :: rest =>
    if c == sep then some ([], rest)
    else (chSplitFirst sep rest).map (fun p => (c :: p.1, p.2))

/-- Hexadecimal digit value, for percent-decoding: digits are codepoints
48 to 57, lowercase a to f are 97 to 102, uppercase A to F are 65 to 70. -/
def hexDigitVal (c : Char) : Option Nat :=
  let n := c.toNat
  if 48 ≤ n && n ≤ 57 then some (n - 48)
  else if 97 ≤ n && n ≤ 102 then some (n - 87)
  else if 65 ≤ n && n ≤ 70 then some (n - 55)
  else none

/-- Percent-decoding scan with fuel (the fuel is the input length, and each
step consumes at least one character, so it never runs out). -/
def chUnquoteAux : Nat → List Char → List Char
  | 0, rest => rest
  | _ + 1, [] => []
  | fuel + 1, '%' :: a :: b :: rest2 =>
    match hexDigitVal a, hexDigitVal b with
    | some ha, some hb => Char.ofNat (ha * 16 + hb) :: chUnquoteAux fuel rest2
    | _, _ => '%' :: chUnquoteAux fuel (a :: b :: rest2)
  | fuel + 1, c :: rest => c :: chUnquoteAux fuel rest

/-- Python urllib.parse.unquote_plus for ASCII data: plus becomes space
first, then percent escapes with two hex digits are decoded, malformed
escapes passing through unchanged. -/
def chUnquote (s : List Char) : List Char :=
  chUnquoteAux s.length (s.map (fun c => if c == '+' then ' ' else c))

/-! ## JSON values and Python object operations -/

/-- Python values produced by json.loads: None, booleans, integers,
strings, lists, and string-keyed dicts. -/
inductive PyVal where
  | pyNone : PyVal
  | pyBool : Bool → PyVal
  | pyInt : Int → PyVal
  | pyStr : String → PyVal
  | pyList : List PyVal → PyVal
  | pyDict : List (String × PyVal) → PyVal

/-- Lookup in an association list modelling a Python dict (first match). -/
def objGet? (kvs : List (String × PyVal)) (k : String) : Option PyVal :=
  (kvs.find? (fun p => p.1 == k)).map (fun p => p.2)

/-- Lookup of a key directly on a PyVal value; none for non-objects. -/
def jGet? (j : PyVal) (k : String) : Option PyVal :=
  match j with
  | PyVal.pyDict kvs => objGet? kvs k
  | _ => none

/-- Python truthiness of a JSON value. -/
def truthy : PyVal → Bool
  | PyVal.pyNone => false
  | PyVal.pyBool b => b
  | PyVal.pyInt n => n != 0
  | PyVal.pyStr s => s != ""
  | PyVal.pyList xs => !xs.isEmpty
  | PyVal.pyDict kvs => !kvs.isEmpty

/-- Python d.get(k, default): AttributeError on non-dicts. -/
def pyGetD (j : PyVal) (k : String) (dflt : PyVal) : Except String PyVal :=
  match j with
  | PyVal.pyDict kvs => Except.ok ((objGet? kvs k).getD dflt)
  | _ => Except.error "AttributeError"

/-- Python membership k in j: key test for dicts, substring for strings,
element test for lists, TypeError otherwise. -/
def pyIn (k : String) (j : PyVal) : Except String Bool :=
  match j with
  | PyVal.pyDict kvs => Except.ok (objGet? kvs k).isSome
  | PyVal.pyStr s => Except.ok (pyInStr k s)
  | PyVal.pyList xs => Except.ok (xs.any (fun x => match x with | PyVal.pyStr s => s == k | _ => false))
  | _ => Except.error "TypeError"

/-- Whether a PyVal value equals a given Python string, as Python eq. -/
def jsonIsStr (j : PyVal) (k : String) : Bool :=
  match j with
  | PyVal.pyStr s => s == k
  | _ => false

/-- Python j[i] for an integer index. -/
def pyIndexNat (j : PyVal) (i : Nat) : Except String PyVal :=
  match j with
  | PyVal.pyList xs =>
    match xs[i]? with
    | some v => Except.ok v
    | none => Except.error "IndexError"
  | PyVal.pyStr s =>
    match s.data[i]? with
    | some c => Except.ok (PyVal.pyStr ⟨[c]⟩)
    | none => Except.error "IndexError"
  | _ => Except.error "TypeError"

/-- Python j[k] for a string key: KeyError when absent, TypeError on non-dicts. -/
def pyIndexKey (j : PyVal) (k : String) : Except String PyVal :=
  match j with
  | PyVal.pyDict kvs =>
    match objGet? kvs k with
    | some v => Except.ok v
    | none => Except.error "KeyError"
  | _ => Except.error "TypeError"

/-- Python iteration over a JSON value: lists yield elements, dicts yield
their keys, strings yield 1-character strings, others raise TypeError. -/
def pyIterJ : PyVal → Except String (List PyVal)
  | PyVal.pyList xs => Except.ok xs
  | PyVal.pyDict kvs => Except.ok (kvs.map (fun p => PyVal.pyStr p.1))
  | PyVal.pyStr s => Except.ok (s.data.map (fun c => PyVal.pyStr ⟨[c]⟩))
  | _ => Except.error "TypeError"

/-! ## Credential broker: secret canonicalization
test-ssh-oidc-browser.py lines 283 to 303. -/

/-- The fixed SSH login user, test-ssh-oidc-browser.py line 22. -/
def SSH_USER : String := "node"

/-- test-ssh-oidc-browser.py lines 283 to 290: the envelope-shape cascade
that locates the secret data map inside a broker response secret. -/
def secret_data (secret : PyVal) : Except String PyVal :=
  match pyIn "decoded" secret with
  | Except.error e => Except.error e
  | Except.ok true =>
    match pyGetD secret "decoded" (PyVal.pyDict []) with
    | Except.error e => Except.error e
    | Except.ok d =>
      match pyGetD d "data" (PyVal.pyDict []) with
      | Except.error e => Except.error e
      | Except.ok dd => Except.ok (if truthy dd then dd else d)
  | Except.ok false =>
    match pyIn "data" secret with
    | Except.error e => Except.error e
    | Except.ok true =>
      match pyGetD secret "data" (PyVal.pyDict []) with
      | Except.error e => Except.error e
      | Except.ok x =>
        match pyIn "data" x with
        | Except.error e => Except.error e
        | Except.ok true => pyGetD x "data" (PyVal.pyDict [])
        | Except.ok false => pyGetD secret "data" (PyVal.pyDict [])
    | Except.ok false => Except.ok secret

/-- Outcome of the brokered-credential extraction: either a credential
with private key, certificate and username values, or no credentials. -/
inductive BrokerOutcome where
  | credential : PyVal → PyVal → PyVal → BrokerOutcome
  | noCredentials : BrokerOutcome

/-- test-ssh-oidc-browser.py lines 283 to 303 and 360 to 362: canonicalize
the secret, read private_key, certificate and username with their defaults,
and gate on a truthy private key; an empty or missing private key yields
noCredentials and the materialization block (lines 307 to 318) is skipped. -/
def brokerCredential (secret : PyVal) : Except String BrokerOutcome :=
  match secret_data secret with
  | Except.error e => Except.error e
  | Except.ok sd =>
    match pyGetD sd "private_key" (PyVal.pyStr "") with
    | Except.error e => Except.error e
    | Except.ok pk =>
      match pyGetD sd "certificate" (PyVal.pyStr "") with
      | Except.error e => Except.error e
      | Except.ok cert =>
        match pyGetD sd "username" (PyVal.pyStr SSH_USER) with
        | Except.error e => Except.error e
        | Except.ok user =>
          if truthy pk then Except.ok (BrokerOutcome.credential pk cert user)
          else Except.ok BrokerOutcome.noCredentials

/-! Spec-side ordered shape matchers (section 4.4 of the specification):
each is a pure function from the raw secret to an optional data map,
tried in priority order, the first structural match winning. Shape (a)
comes in two versions: specShapeALit follows the section 4.4 words
exactly (any nested data map matches), and specShapeA is the amended
shape that the code actually implements (only a non-empty nested data
map matches, because the Python or of line 284 treats an empty dict as
falsy and falls through to the decoded envelope itself). -/

/-- Shape (a) exactly as section 4.4 words it: a decoded envelope
containing a nested data map, with no restriction on that map. -/
def specShapeALit (s : PyVal) : Option PyVal :=
  match jGet? s "decoded" with
  | some (PyVal.pyDict d) =>
    match objGet? d "data" with
    | some (PyVal.pyDict m) => some (PyVal.pyDict m)
    | _ => none
  | _ => none

/-- Shape (a) as the code amends it: a decoded envelope containing a
non-empty nested data map. An empty nested data map is falsy in Python,
so line 284 falls through to shape (b) instead of selecting it. -/
def specShapeA (s : PyVal) : Option PyVal :=
  match jGet? s "decoded" with
  | some (PyVal.pyDict d) =>
    match objGet? d "data" with
    | some (PyVal.pyDict m) => if m.isEmpty then none else some (PyVal.pyDict m)
    | _ => none
  | _ => none

/-- Shape (b): a decoded envelope that is itself the data map. -/
def specShapeB (s : PyVal) : Option PyVal :=
  match jGet? s "decoded" with
  | some d => some d
  | none => none

/-- Shape (c): a double-nested data.data map. -/
def specShapeC (s : PyVal) : Option PyVal :=
  match jGet? s "data" with
  | some (PyVal.pyDict x) => objGet? x "data"
  | _ => none

/-- Shape (d): a single data map. -/
def specShapeD (s : PyVal) : Option PyVal := jGet? s "data"

/-- The ordered matcher list with the literal shape (a) of the claim:
shapes (a) to (d) tried in order, with shape (e), the secret object
itself, as the final fallback. -/
def specCanonLit (s : PyVal) : PyVal :=
  ((specShapeALit s).orElse (fun _ =>
    (specShapeB s).orElse (fun _ =>
      (specShapeC s).orElse (fun _ => specShapeD s)))).getD s

/-- The ordered matcher list with the amended shape (a): shapes (a) to
(d) tried in order, with shape (e), the secret object itself, as the
final fallback. -/
def specCanon (s : PyVal) : PyVal :=
  ((specShapeA s).orElse (fun _ =>
    (specShapeB s).orElse (fun _ =>
      (specShapeC s).orElse (fun _ => specShapeD s)))).getD s

/-- Envelope component well-shapedness: when present, the value is a dict
and any nested data entry in it is a dict (the shapes json.loads produces
for the broker secret payload; on other values the Python code raises). -/
def wsEnv (o : Option PyVal) : Bool :=
  match o with
  | none => true
  | some (PyVal.pyDict m) =>
    match objGet? m "data" with
    | none => true
    | some (PyVal.pyDict _) => true
    | some _ => false
  | some _ => false

/-- A broker response secret whose envelope positions are dict-shaped. -/
def wellShaped (s : PyVal) : Bool :=
  match s with
  | PyVal.pyDict kvs => wsEnv (objGet? kvs "decoded") && wsEnv (objGet? kvs "data")
  | _ => false

/-! ## Token extraction
test-ssh-oidc-browser.py lines 223 to 239. The browser storage read (the
page.evaluate of line 223) is the storage input; json.loads is passed in
as an oracle function returning none when parsing raises. -/

/-- The attribute-path read of line 235:
session_data.get(authenticated, dict()).get(attributes, dict()).get(token),
with Python None modelled as PyVal.pyNone. -/
def tokenAtPath (sd : PyVal) : Except String PyVal :=
  match pyGetD sd "authenticated" (PyVal.pyDict []) with
  | Except.error e => Except.error e
  | Except.ok a =>
    match pyGetD a "attributes" (PyVal.pyDict []) with
    | Except.error e => Except.error e
    | Except.ok b => pyGetD b "token" PyVal.pyNone

/-- test-ssh-oidc-browser.py lines 229 to 239: auth_token after the
extraction block. Falsy storage is skipped; a parse failure or an
attribute error inside the try is swallowed by the bare except, leaving
auth_token unset (PyVal.pyNone). There is no fallback that uses the raw
storage value. -/
def extractAuthToken (loads : String → Option PyVal) (storage : String) : PyVal :=
  if storage = "" then PyVal.pyNone
  else
    match loads storage with
    | none => PyVal.pyNone
    | some sd =>
      match tokenAtPath sd with
      | Except.ok t => t
      | Except.error _ => PyVal.pyNone

/-! ## Target registry resolution
test-ssh-oidc-browser.py lines 27 to 40 (get_target_ids). -/

/-- Python dict assignment d[k] = v on an insertion-ordered assoc list. -/
def dictSet (d : List (String × String)) (k v : String) : List (String × String) :=
  match d with
  | [] => [(k, v)]
  | (k1, v1) :: rest => if k1 == k then (k, v) :: rest else (k1, v1) :: dictSet rest k v

/-- Python dict d.get(k) on the assoc list. -/
def dictGetStr (d : List (String × String)) (k : String) : Option String :=
  (d.find? (fun p => p.1 == k)).map (fun p => p.2)

/-- Lines 35 and 37: line.split(colon)[-1].strip().split()[0]; none models
the IndexError raised when no token follows the final colon. -/
def lineTok (line : String) : Option String :=
  (pyWords (pyStrip ((pySplitChar ':' line).getLastD ""))).head?

/-- The for loop of lines 33 to 37. An IndexError from lineTok propagates
out of the loop to the except handler of line 38, which prints a warning;
the function then returns the dict accumulated so far. -/
def targetLoop (acc : List (String × String)) : List String → List (String × String)
  | [] => acc
  | line :: rest =>
    if pyInStr "claude-ssh:" line then
      match lineTok line with
      | some t => targetLoop (dictSet acc "claude" t) rest
      | none => acc
    else if pyInStr "gemini-ssh:" line then
      match lineTok line with
      | some t => targetLoop (dictSet acc "gemini" t) rest
      | none => acc
    else targetLoop acc rest

/-- get_target_ids, lines 27 to 40: fileExists models os.path.exists on
the credentials file, lines its logical lines. -/
def get_target_ids (fileExists : Bool) (lines : List String) : List (String × String) :=
  if fileExists then targetLoop [] lines else []

/-- The id the specification text predicts for a marker line: the first
whitespace-delimited token after the first occurrence of the marker. -/
def specTokenAfterMarker (marker line : String) : Option String :=
  (chAfterFirst marker.data line.data).bind
    (fun r => (chWords (chTrim r)).head?.map (fun l => ⟨l⟩))

/-! ## Remote probe classification
test-ssh-oidc-browser.py lines 346 to 352. -/

/-- Line 349: the output-line filter. A line survives when it is nonempty,
does not start with Proxy, does not start with a space, and contains no
colon. -/
def probeLines (stdout : String) : List String :=
  (pySplitChar '\n' (pyStrip stdout)).filter
    (fun l => l != "" && !pyStartsWith l "Proxy" && !pyStartsWith l " " && !pyInStr ":" l)

/-- Line 350: the last surviving output line, or the empty string. -/
def hostnameOutput (stdout : String) : String := (probeLines stdout).getLastD ""

/-- Success signal (a) of section 4.6: zero exit status. -/
def exitSignal (rc : Int) : Bool := rc == 0

/-- Success signal (b) of section 4.6 as the code implements it: the
filtered last output line is nonempty and contains the sentinel substring
sandbox, case-insensitively. -/
def sentinelSignal (stdout : String) : Bool :=
  hostnameOutput stdout != "" && pyInStr "sandbox" (pyLower (hostnameOutput stdout))

/-- Lines 347 to 352: the probe success classification. -/
def probeSucceeded (stdout : String) (rc : Int) : Bool :=
  let output := pyStrip stdout
  let lines := (pySplitChar '\n' output).filter
    (fun l => l != "" && !pyStartsWith l "Proxy" && !pyStartsWith l " " && !pyInStr ":" l)
  let hostname_output := lines.getLastD ""
  rc == 0 || (hostname_output != "" && pyInStr "sandbox" (pyLower hostname_output))

/-- The classification the claim text literally describes: the last
non-empty, non-indented line of stdout contains the sentinel (no Proxy
filter and no colon filter). -/
def specNaiveLastLine (stdout : String) : String :=
  ((pySplitChar '\n' (pyStrip stdout)).filter
    (fun l => l != "" && !pyStartsWith l " ")).getLastD ""

/-- Claim-text classification: zero exit, or sentinel in the naive last line. -/
def specNaiveClassify (stdout : String) (rc : Int) : Bool :=
  rc == 0 || pyInStr "sandbox" (pyLower (specNaiveLastLine stdout))

/-! ## Secret materialization
test-ssh-oidc-browser.py lines 307 to 318 plus the guaranteed removal of
the TemporaryDirectory on exit of the with block. -/

/-- Filesystem-level events of the materialization block. -/
inductive FsEvent where
  | mkTempDir : String → FsEvent
  | writeFile : String → String → FsEvent
  | chmod : String → Nat → FsEvent
  | runProbe : Bool → FsEvent
  | removeTempDir : String → FsEvent
deriving DecidableEq

/-- Lines 307 to 318: key and optional certificate written under the
scoped temporary directory, key chmod 0600, certificate chmod 0644; the
probe then runs inside the with block, and the directory is removed on
with-block exit whether the probe returned success (the return True of
line 355 still exits the with block) or fell through on failure. -/
def materializeEvents (tempDir privateKey certificate : String) (probeOutcome : Bool) : List FsEvent :=
  let keyFile := tempDir ++ "/id_ed25519"
  let certFile := tempDir ++ "/id_ed25519-cert.pub"
  [FsEvent.mkTempDir tempDir, FsEvent.writeFile keyFile privateKey,
   FsEvent.chmod keyFile 0o600]
  ++ (if certificate = "" then [] else
      [FsEvent.writeFile certFile certificate, FsEvent.chmod certFile 0o644])
  ++ [FsEvent.runProbe probeOutcome, FsEvent.removeTempDir tempDir]

/-! ## Callback classification
test-oidc-browser.py lines 136 to 186 (with the urllib.parse query
handling of lines 143 to 147), and the error short-circuit of
test-ssh-oidc-browser.py lines 143 to 145. -/

/-- urllib.parse.urlparse(url).query: the text after the first question
mark of the part before the first hash. -/
def urlQuery (url : String) : String :=
  let beforeFrag := (pySplitChar '#' url).headD ""
  match chSplitFirst '?' beforeFrag.data with
  | none => ""
  | some p => ⟨p.2⟩

/-- urllib.parse.parse_qsl with default options: fields split on the
ampersand, empty fields skipped, fields without an equals sign skipped,
fields with an empty value skipped, names and values unquoted. -/
def parseQs (qs : String) : List (String × String) :=
  (pySplitChar '&' qs).filterMap (fun field =>
    if field = "" then none
    else
      match chSplitFirst '=' field.data with
      | none => none
      | some p =>
        if p.2.isEmpty then none
        else some (⟨chUnquote p.1⟩, ⟨chUnquote p.2⟩))

/-- test-oidc-browser.py lines 142 to 147: the error code reported when
the final url carries an error query parameter (params[error][0]). -/
def extractErrorReason (url : String) : Option String :=
  if pyInStr "error=" url then
    ((parseQs (urlQuery url)).find? (fun p => p.1 == "error")).map (fun p => p.2)
  else none

/-- test-oidc-browser.py lines 136 to 186: classification of the main
page state after the callback. Inputs: the main-page url (line 132), the
raw page content (lowered at line 137), and the url observed after the
single bounded re-wait of the pending branch (line 156). Returns the
verdict and the extracted error code. -/
def classifyCallback (finalUrl pageContent urlAfterWait : String) : Bool × Option String :=
  let content := pyLower pageContent
  if pyInStr "error" (pyLower finalUrl) || pyInStr "authentication-error" finalUrl then
    (false, extractErrorReason finalUrl)
  else if pyInStr "pending" content then
    if pyInStr "scopes" urlAfterWait && !pyInStr "authenticate" urlAfterWait then (true, none)
    else (false, none)
  else if pyInStr "scopes" finalUrl && !pyInStr "authenticate" finalUrl then (true, none)
  else if pyInStr "targets" finalUrl || pyInStr "sessions" finalUrl then (true, none)
  else if pyInStr "sign out" content || pyInStr "logout" content then (true, none)
  else (false, none)

/-! ## The post-callback flow of test_oidc_ssh_flow
test-ssh-oidc-browser.py lines 139 to 467, starting at the authentication
check after credentials were submitted in the Keycloak popup. External
commands are oracles; browser interactions that only produce diagnostics
are omitted; the model assumes no Playwright timeout aborts the run. -/

/-- Result of one subprocess.run invocation: TimeoutExpired, some other
raised exception, or completion with an exit status and stdout. -/
inductive SubprocResult where
  | timeout : SubprocResult
  | raised : SubprocResult
  | done : Int → String → SubprocResult
deriving DecidableEq

/-- The external world of one run. -/
structure Run where
  final_url : String
  storage : String
  loads : String → Option PyVal
  registryExists : Bool
  registryLines : List String
  uiTargetId : PyVal
  authorizeResult : SubprocResult
  probeResult : SubprocResult
  scopesResult : SubprocResult
  projectsResult : SubprocResult
  targetsResult : SubprocResult
  cliSshResult : SubprocResult
  connectButtonVisible : Bool

/-- Python x or y on target-id values (None modelled as PyVal.pyNone). -/
def pyOrJ (a b : PyVal) : PyVal := if truthy a then a else b

/-- Line 246: ssh_target_id from the registry dict with the UI-discovered
id as last resort. -/
def resolveTargetId (run : Run) : PyVal :=
  let targets := get_target_ids run.registryExists run.registryLines
  pyOrJ (match dictGetStr targets "gemini" with | some s => PyVal.pyStr s | none => PyVal.pyNone)
    (pyOrJ (match dictGetStr targets "claude" with | some s => PyVal.pyStr s | none => PyVal.pyNone)
      run.uiTargetId)

/-- auth_data.get(item, dict()).get(credentials, list()), line 269. -/
def credsOf (d : PyVal) : Except String PyVal :=
  match pyGetD d "item" (PyVal.pyDict []) with
  | Except.error e => Except.error e
  | Except.ok item => pyGetD item "credentials" (PyVal.pyList [])

/-- Lines 253 to 373: the authorize-session call, brokered-credential
extraction and ssh probe, wrapped in one try whose handlers print and fall
through. Returns true exactly when the block reached the return True of
line 355. A non-string target id raises TypeError inside subprocess.run
and is caught at line 370. -/
def step33 (run : Run) (tid : PyVal) : Bool :=
  match tid with
  | PyVal.pyStr _ =>
    (match run.authorizeResult with
    | SubprocResult.timeout => false
    | SubprocResult.raised => false
    | SubprocResult.done rc out =>
      if rc == 0 then
        match run.loads out with
        | none => false
        | some auth_data =>
          match credsOf auth_data with
          | Except.error _ => false
          | Except.ok credentials =>
            if truthy credentials then
              match pyIndexNat credentials 0 with
              | Except.error _ => false
              | Except.ok cred =>
                match pyGetD cred "secret" (PyVal.pyDict []) with
                | Except.error _ => false
                | Except.ok secret =>
                  match brokerCredential secret with
                  | Except.error _ => false
                  | Except.ok BrokerOutcome.noCredentials => false
                  | Except.ok (BrokerOutcome.credential _ _ _) =>
                    match run.probeResult with
                    | SubprocResult.timeout => false
                    | SubprocResult.raised => false
                    | SubprocResult.done prc pout => probeSucceeded pout prc
            else false
      else false)
  | _ => false

/-- next((s[id] for s in xs if s.get(name) == target), None) as in lines
391, 401: first matching item wins, a dict/key error aborts the lookup. -/
def findIdAux : List PyVal → String → Except String PyVal
  | [], _ => Except.ok PyVal.pyNone
  | s :: rest, target =>
    match pyGetD s "name" PyVal.pyNone with
    | Except.error e => Except.error e
    | Except.ok nm =>
      if jsonIsStr nm target then pyIndexKey s "id" else findIdAux rest target

/-- d.get(items, list()) iterated with the name-matching generator. -/
def getItemsIdByName (d : PyVal) (target : String) : Except String PyVal :=
  match pyGetD d "items" (PyVal.pyList []) with
  | Except.error e => Except.error e
  | Except.ok items =>
    match pyIterJ items with
    | Except.error e => Except.error e
    | Except.ok xs => findIdAux xs target

/-- Line 411: first target item whose lowered name contains ssh. -/
def findSshTarget : List PyVal → Except String PyVal
  | [] => Except.ok PyVal.pyNone
  | t :: rest =>
    match pyGetD t "name" (PyVal.pyStr "") with
    | Except.error e => Except.error e
    | Except.ok (PyVal.pyStr nm) =>
      if pyInStr "ssh" (pyLower nm) then pyIndexKey t "id" else findSshTarget rest
    | Except.ok _ => Except.error "AttributeError"

/-- tgts.get(items, list()) iterated with the ssh-name generator. -/
def getItemsSshId (d : PyVal) : Except String PyVal :=
  match pyGetD d "items" (PyVal.pyList []) with
  | Except.error e => Except.error e
  | Except.ok items =>
    match pyIterJ items with
    | Except.error e => Except.error e
    | Except.ok xs => findSshTarget xs

/-- Lines 376 to 415: the scopes, projects, targets CLI lookup chain run
when no target id is known yet. Any failure leaves ssh_target_id at its
previous value tid0; a completed chain assigns the lookup result, which
may itself be None. -/
def cliLookup (run : Run) (tid0 : PyVal) : PyVal :=
  match run.scopesResult with
  | SubprocResult.done rc out =>
    if rc == 0 then
      match run.loads out with
      | some scopes =>
        match getItemsIdByName scopes "DevOps" with
        | Except.ok orgId =>
          if truthy orgId then
            match run.projectsResult with
            | SubprocResult.done prc pout =>
              if prc == 0 then
                match run.loads pout with
                | some projects =>
                  match getItemsIdByName projects "Agent-Sandbox" with
                  | Except.ok projId =>
                    if truthy projId then
                      match run.targetsResult with
                      | SubprocResult.done trc tout =>
                        if trc == 0 then
                          match run.loads tout with
                          | some tgts =>
                            match getItemsSshId tgts with
                            | Except.ok v => v
                            | Except.error _ => tid0
                          | none => tid0
                        else tid0
                      | _ => tid0
                    else tid0
                  | Except.error _ => tid0
                | none => tid0
              else tid0
            | _ => tid0
          else tid0
        | Except.error _ => tid0
      | none => tid0
    else tid0
  | _ => tid0

/-- Lines 418 to 450: boundary connect ssh echoing SSH_OIDC_SUCCESS;
success is the marker appearing in stdout, any timeout or error falls
through. -/
def cliSshOk (run : Run) : Bool :=
  match run.cliSshResult with
  | SubprocResult.done _ out => pyInStr "SSH_OIDC_SUCCESS" out
  | _ => false

/-- The phases of the flow, for tracking what ran. -/
inductive Phase where
  | authCheck : Phase
  | navTargets : Phase
  | tokenExtract : Phase
  | resolveTargets : Phase
  | brokering : Phase
  | dynLookup : Phase
  | cliSsh : Phase
  | uiConnect : Phase
  | authFallback : Phase
deriving DecidableEq

/-- Lines 452 to 467: the UI connect-button fallback and the final
token-only fallback (return True when a token was extracted, line 462,
else return False). -/
def finishUi (run : Run) (tr : List Phase) (tokenOk : Bool) : Bool × List Phase :=
  if run.connectButtonVisible then (true, tr ++ [Phase.uiConnect])
  else (tokenOk, tr ++ [Phase.uiConnect, Phase.authFallback])

/-- test-ssh-oidc-browser.py lines 139 to 467: the overall verdict of the
flow after credentials were submitted, with the phases that executed. An
error marker in the main-page url returns False immediately (lines 143 to
145) and no later phase runs. -/
def sshFlow (run : Run) : Bool × List Phase :=
  if pyInStr "error" (pyLower run.final_url) then (false, [Phase.authCheck])
  else
    let tok := extractAuthToken run.loads run.storage
    let tid := resolveTargetId run
    let base := [Phase.authCheck, Phase.navTargets, Phase.tokenExtract, Phase.resolveTargets]
    if truthy tok then
      if step33 run tid then (true, base ++ [Phase.brokering])
      else
        let tid2 := if truthy tid then tid else cliLookup run tid
        let tr1 := base ++ (if truthy tid then [Phase.brokering]
                            else [Phase.brokering, Phase.dynLookup])
        if truthy tid2 then
          if cliSshOk run then (true, tr1 ++ [Phase.cliSsh])
          else finishUi run (tr1 ++ [Phase.cliSsh]) true
        else finishUi run tr1 true
    else finishUi run base false

/-! ## Concrete fixtures -/

/-- A browser session blob holding a token at the expected path. -/
def c1sess : PyVal :=
  PyVal.pyDict [("authenticated", PyVal.pyDict [("attributes", PyVal.pyDict [("token", PyVal.pyStr "tok_secret_123")])])]

/-- A run in which authentication succeeds, the registry resolves a
target, and the authorize-session broker call times out; every later
probe fails and no connect button is visible. -/
def c1run : Run where
  final_url := "https://boundary.local/scopes/global/scopes"
  storage := "SESSION"
  loads := fun s => if s = "SESSION" then some c1sess else none
  registryExists := true
  registryLines := ["gemini-ssh: t_abc123"]
  uiTargetId := PyVal.pyNone
  authorizeResult := SubprocResult.timeout
  probeResult := SubprocResult.timeout
  scopesResult := SubprocResult.timeout
  projectsResult := SubprocResult.timeout
  targetsResult := SubprocResult.timeout
  cliSshResult := SubprocResult.done 255 ""
  connectButtonVisible := false

/-- A run in which authentication succeeds and no target is resolvable:
the registry file is absent, the dynamic lookup times out, and no connect
button is visible. -/
def c1passRun : Run where
  final_url := "https://boundary.local/scopes"
  storage := "SESSION"
  loads := fun s => if s = "SESSION" then some c1sess else none
  registryExists := false
  registryLines := []
  uiTargetId := PyVal.pyNone
  authorizeResult := SubprocResult.timeout
  probeResult := SubprocResult.timeout
  scopesResult := SubprocResult.timeout
  projectsResult := SubprocResult.timeout
  targetsResult := SubprocResult.timeout
  cliSshResult := SubprocResult.timeout
  connectButtonVisible := false

/-- A run whose post-callback main-page url carries error=access_denied. -/
def c8run : Run where
  final_url := "https://boundary.local/scopes/authenticate?error=access_denied"
  storage := ""
  loads := fun _ => none
  registryExists := false
  registryLines := []
  uiTargetId := PyVal.pyNone
  authorizeResult := SubprocResult.timeout
  probeResult := SubprocResult.timeout
  scopesResult := SubprocResult.timeout
  projectsResult := SubprocResult.timeout
  targetsResult := SubprocResult.timeout
  cliSshResult := SubprocResult.timeout
  connectButtonVisible := false

/-- The broker secret of the section 8 scenario. -/
def c2secret : PyVal :=
  PyVal.pyDict [("decoded", PyVal.pyDict [("data",
    PyVal.pyDict [("private_key", PyVal.pyStr "KEY"), ("username", PyVal.pyStr "node")])])]

/-- A well-shaped broker secret whose decoded envelope holds an empty
nested data map beside a private key. -/
def c2secretEmptyData : PyVal :=
  PyVal.pyDict [("decoded", PyVal.pyDict [("data", PyVal.pyDict []),
    ("private_key", PyVal.pyStr "K")])]


/-! ## Helper lemmas -/

/-- String concatenation is associative. -/
theorem strAppendAssoc (a b c : String) : a ++ b ++ c = a ++ (b ++ c) := by
  cases a with | mk la => cases b with | mk lb => cases c with | mk lc =>
  show String.mk (la ++ lb ++ lc) = String.mk (la ++ (lb ++ lc))
  rw [List.append_assoc]

/-! ## Claim theorems -/

/-- C4, counterexample: the storage value not-json is non-empty and fails
to parse, yet the extractor yields PyVal.pyNone, not the raw value used
verbatim as the claim states. -/
theorem c4_raw_fallback_cex :
    extractAuthToken (fun _ => none) "not-json" = PyVal.pyNone ∧
    PyVal.pyNone ≠ PyVal.pyStr "not-json" :=
  ⟨rfl, fun h => PyVal.noConfusion h⟩

/-- C4 (amended): for every non-empty storage value that fails to parse,
the token extractor yields no token (PyVal.pyNone); the raw value is never
used verbatim. -/
theorem c4_parse_failure_amended (loads : String → Option PyVal) (storage : String)
    (h1 : storage ≠ "") (h2 : loads storage = none) :
    extractAuthToken loads storage = PyVal.pyNone := by
  unfold extractAuthToken
  rw [if_neg h1, h2]

/-- C4 witness: the amended theorem applied at a concrete failing parse. -/
theorem c4_parse_failure_witness : extractAuthToken (fun _ => none) "zz" = PyVal.pyNone :=
  c4_parse_failure_amended (fun _ => none) "zz" (by decide) rfl

/-- C5: for empty storage, for storage that fails to parse, and for
parsed content in which the attribute path authenticated.attributes.token
is missing (the path read yields None or raises), token extraction
returns no token (PyVal.pyNone); the extractor is a total function, so it
never raises. -/
theorem c5_token_extractor_total (loads : String → Option PyVal) (storage : String) :
    (storage = "" → extractAuthToken loads storage = PyVal.pyNone) ∧
    (loads storage = none → extractAuthToken loads storage = PyVal.pyNone) ∧
    (∀ sd, loads storage = some sd →
      (tokenAtPath sd = Except.ok PyVal.pyNone ∨ ∃ e, tokenAtPath sd = Except.error e) →
      extractAuthToken loads storage = PyVal.pyNone) := by
  refine ⟨?_, ?_, ?_⟩
  · intro h; unfold extractAuthToken; rw [if_pos h]
  · intro h; unfold extractAuthToken
    by_cases hs : storage = ""
    · rw [if_pos hs]
    · rw [if_neg hs, h]
  · intro sd hsd hpath; unfold extractAuthToken
    by_cases hs : storage = ""
    · rw [if_pos hs]
    · rw [if_neg hs, hsd]
      rcases hpath with h | ⟨e, h⟩ <;> simp [h]

/-- C5 witness: the three cases at concrete inputs. -/
theorem c5_token_extractor_witness :
    extractAuthToken (fun _ => none) "" = PyVal.pyNone ∧
    extractAuthToken (fun _ => none) "bad json" = PyVal.pyNone ∧
    extractAuthToken (fun _ => some (PyVal.pyDict [])) "x" = PyVal.pyNone :=
  ⟨(c5_token_extractor_total (fun _ => none) "").1 rfl,
   (c5_token_extractor_total (fun _ => none) "bad json").2.1 rfl,
   (c5_token_extractor_total (fun _ => some (PyVal.pyDict [])) "x").2.2 (PyVal.pyDict []) rfl (Or.inl rfl)⟩

/-- C6, counterexample: the line claude-ssh colon t_abc colon 123 extra
contains the marker; the claim predicts the first whitespace token after
the marker, t_abc:123, but the code takes the text after the last colon
and resolves claude to 123. -/
theorem c6_marker_colon_cex :
    get_target_ids true ["claude-ssh: t_abc:123 extra"] = [("claude", "123")] ∧
    specTokenAfterMarker "claude-ssh:" "claude-ssh: t_abc:123 extra" = some "t_abc:123" ∧
    ("123" : String) ≠ "t_abc:123" :=
  ⟨by decide, by decide, by decide⟩

/-- C6 (amended): for a registry line containing the claude marker, the
resolved id is the first whitespace-delimited token after the last colon
of the line (which coincides with the first token after the marker only
when no further colon follows it); the scenario line resolves claude to
t_abc123. -/
theorem c6_registry_resolution_amended :
    (∀ line t ts, pyInStr "claude-ssh:" line = true →
      pyWords (pyStrip ((pySplitChar ':' line).getLastD "")) = t :: ts →
      get_target_ids true [line] = [("claude", t)]) ∧
    get_target_ids true ["claude-ssh: t_abc123 extra"] = [("claude", "t_abc123")] := by
  constructor
  · intro line t ts h1 h2
    have h3 : lineTok line = some t := by
      unfold lineTok
      rw [h2]
      rfl
    simp [get_target_ids, targetLoop, h1, h3, dictSet]
  · decide

/-- C6 witness: the amended theorem at a concrete marker line. -/
theorem c6_registry_resolution_witness :
    pyInStr "claude-ssh:" "claude-ssh: tid9 more" = true ∧
    get_target_ids true ["claude-ssh: tid9 more"] = [("claude", "tid9")] :=
  ⟨by decide,
   c6_registry_resolution_amended.1 "claude-ssh: tid9 more" "tid9" ["more"]
     (by decide) (by decide)⟩

/-- C7, counterexample: with output host newline note sandbox colon yes
and exit status 1, the last non-empty non-indented line contains the
sentinel, so the claim classifies the probe as succeeded; the code also
filters out lines containing a colon, so it classifies it as failed. -/
theorem c7_probe_filter_cex :
    probeSucceeded "host\nnote sandbox: yes" 1 = false ∧
    specNaiveClassify "host\nnote sandbox: yes" 1 = true :=
  ⟨by decide, by decide⟩

/-- C7 (amended): the probe is classified as succeeded iff the exit
status is zero or the last stdout line that is non-empty, not indented,
does not start with Proxy and contains no colon contains the sentinel
substring sandbox case-insensitively; in particular an exit status of 1
with such a line is classified as succeeded. -/
theorem c7_probe_classification_amended :
    (∀ stdout rc, probeSucceeded stdout rc = true ↔
      (rc = 0 ∨ sentinelSignal stdout = true)) ∧
    probeSucceeded "sandbox-vm" 1 = true := by
  constructor
  · intro stdout rc
    simp [probeSucceeded, sentinelSignal, hostnameOutput, probeLines, Bool.or_eq_true,
      Bool.and_eq_true, beq_iff_eq]
  · decide

/-- C8: an error marker in the post-callback main-page url makes the ssh
flow return the fail verdict with only the authentication-check phase
executed; the oidc flow classifier reports fail with the extracted error
query parameter as reason; at the scenario url with error=access_denied
the reported reason is access_denied. -/
theorem c8_auth_error_short_circuit :
    (∀ run : Run, pyInStr "error" (pyLower run.final_url) = true →
      sshFlow run = (false, [Phase.authCheck])) ∧
    (∀ url content url2, pyInStr "error" (pyLower url) = true →
      classifyCallback url content url2 = (false, extractErrorReason url)) ∧
    classifyCallback "https://boundary.local/scopes/authenticate?error=access_denied" "" ""
      = (false, some "access_denied") := by
  refine ⟨?_, ?_, by decide⟩
  · intro run h; simp [sshFlow, h]
  · intro url content url2 h; simp [classifyCallback, h]

/-- C8 witness: the ssh-flow part of the theorem at a concrete run whose
url carries error=access_denied. -/
theorem c8_auth_error_witness :
    pyInStr "error" (pyLower c8run.final_url) = true ∧
    sshFlow c8run = (false, [Phase.authCheck]) :=
  ⟨by decide, c8_auth_error_short_circuit.1 c8run (by decide)⟩

/-- C9: for every materialization, the private key is written at the key
path and chmodded 0600; when a certificate is present it is written
world-readable (0644) under the key file name plus the fixed suffix
-cert.pub; and the scoped temporary directory is removed whether the
probe succeeded or failed. -/
theorem c9_materialization (dir pk cert : String) (outcome : Bool) :
    FsEvent.writeFile (dir ++ "/id_ed25519") pk ∈ materializeEvents dir pk cert outcome ∧
    FsEvent.chmod (dir ++ "/id_ed25519") 0o600 ∈ materializeEvents dir pk cert outcome ∧
    (cert ≠ "" →
      FsEvent.writeFile (dir ++ "/id_ed25519" ++ "-cert.pub") cert
        ∈ materializeEvents dir pk cert outcome ∧
      FsEvent.chmod (dir ++ "/id_ed25519" ++ "-cert.pub") 0o644
        ∈ materializeEvents dir pk cert outcome) ∧
    FsEvent.removeTempDir dir ∈ materializeEvents dir pk cert outcome := by
  have hsuffix : dir ++ "/id_ed25519" ++ "-cert.pub" = dir ++ "/id_ed25519-cert.pub" := by
    rw [strAppendAssoc]
    rfl
  refine ⟨?_, ?_, ?_, ?_⟩
  · simp [materializeEvents]
  · simp [materializeEvents]
  · intro hc
    rw [hsuffix]
    constructor <;> simp [materializeEvents, hc]
  · simp [materializeEvents]

/-- C9 witness: the theorem at concrete paths with a present certificate
and a failed probe. -/
theorem c9_materialization_witness :
    FsEvent.chmod ("/tmp/x" ++ "/id_ed25519") 0o600
      ∈ materializeEvents "/tmp/x" "PK" "CERT" false ∧
    FsEvent.chmod ("/tmp/x" ++ "/id_ed25519" ++ "-cert.pub") 0o644
      ∈ materializeEvents "/tmp/x" "PK" "CERT" false ∧
    FsEvent.removeTempDir "/tmp/x" ∈ materializeEvents "/tmp/x" "PK" "CERT" false :=
  ⟨(c9_materialization "/tmp/x" "PK" "CERT" false).2.1,
   ((c9_materialization "/tmp/x" "PK" "CERT" false).2.2.1 (by decide)).2,
   (c9_materialization "/tmp/x" "PK" "CERT" false).2.2.2⟩

/-- C1, counterexample: in the run c1run authentication succeeds (a token
is extracted), the registry resolves the target t_abc123, and the
authorize-session broker call times out, yet the flow verdict is pass,
not the fail with reason BrokerUnavailable that the claim states: after
the caught timeout the flow falls through to the token-only fallback of
line 462 and returns True. -/
theorem c1_broker_timeout_cex :
    truthy (extractAuthToken c1run.loads c1run.storage) = true ∧
    resolveTargetId c1run = PyVal.pyStr "t_abc123" ∧
    c1run.authorizeResult = SubprocResult.timeout ∧
    (sshFlow c1run).1 = true :=
  ⟨by decide, rfl, rfl, by decide⟩

/-- C1 (amended): when the post-callback url carries no error marker and
a session token was extracted, the overall verdict is pass regardless of
the later phases: a run with no resolvable target passes, and a run whose
target resolved but whose brokering or probing failed (including a broker
timeout) also passes through the token-only fallback; after
authentication the verdict is fail only when no token was extracted. -/
theorem c1_degrade_rule_amended (run : Run)
    (h1 : pyInStr "error" (pyLower run.final_url) = false)
    (h2 : truthy (extractAuthToken run.loads run.storage) = true) :
    (sshFlow run).1 = true := by
  simp only [sshFlow, h1, Bool.false_eq_true, if_false, h2, if_true, finishUi]
  repeat' split
  all_goals rfl

/-- C1 witness: the amended theorem at a run with a token and no
resolvable target (registry absent, dynamic lookup times out), the
pass-side scenario of the degrade rule. -/
theorem c1_degrade_rule_witness :
    pyInStr "error" (pyLower c1passRun.final_url) = false ∧
    truthy (extractAuthToken c1passRun.loads c1passRun.storage) = true ∧
    resolveTargetId c1passRun = PyVal.pyNone ∧
    (sshFlow c1passRun).1 = true :=
  ⟨by decide, by decide, rfl,
   c1_degrade_rule_amended c1passRun (by decide) (by decide)⟩

/-- C2, counterexample: at the well-shaped secret whose decoded envelope
holds an empty data map beside a private key, the first structural match
of the claim's shape (a) is the empty nested data map, which holds no
private key, yet the code treats the empty map as falsy, falls through
to the decoded envelope itself, and builds a credential with key K; so
canonicalization does not stop at the claim's first structural match. -/
theorem c2_first_match_cex :
    wellShaped c2secretEmptyData = true ∧
    specShapeALit c2secretEmptyData = some (PyVal.pyDict []) ∧
    specCanonLit c2secretEmptyData = PyVal.pyDict [] ∧
    secret_data c2secretEmptyData
      = Except.ok (PyVal.pyDict [("data", PyVal.pyDict []), ("private_key", PyVal.pyStr "K")]) ∧
    PyVal.pyDict [("data", PyVal.pyDict []), ("private_key", PyVal.pyStr "K")]
      ≠ PyVal.pyDict [] ∧
    brokerCredential c2secretEmptyData
      = Except.ok (BrokerOutcome.credential (PyVal.pyStr "K") (PyVal.pyStr "") (PyVal.pyStr "node")) :=
  ⟨by decide, rfl, rfl, rfl, by simp, rfl⟩

/-- C2 (amended): on every well-shaped broker secret the canonicalization
cascade of lines 283 to 290 computes exactly the ordered first-match of
the shape matchers (a) a NON-EMPTY decoded.data map, (b) decoded itself,
(c) data.data, (d) data, (e) the secret itself; shape (a) is narrowed to
non-empty nested data maps, since the code treats an empty one as no
match and falls through to shape (b). -/
theorem c2_canonicalization_order (s : PyVal) (h : wellShaped s = true) :
    secret_data s = Except.ok (specCanon s) := by
  cases s with
  | pyNone => simp [wellShaped] at h
  | pyBool b => simp [wellShaped] at h
  | pyInt n => simp [wellShaped] at h
  | pyStr st => simp [wellShaped] at h
  | pyList xs => simp [wellShaped] at h
  | pyDict kvs =>
    rw [wellShaped, Bool.and_eq_true] at h
    obtain ⟨hdec, hdat⟩ := h
    rcases hd : objGet? kvs "decoded" with _ | d
    · rcases hx : objGet? kvs "data" with _ | x
      · simp [secret_data, pyIn, specCanon, specShapeA, specShapeB, specShapeC, specShapeD,
          jGet?, Option.orElse, hd, hx]
      · rw [hd] at hdec
        rw [hx] at hdat
        cases x with
        | pyDict xkvs =>
          rcases hy : objGet? xkvs "data" with _ | y
          · simp [secret_data, pyIn, pyGetD, specCanon, specShapeA, specShapeB, specShapeC,
              specShapeD, jGet?, Option.orElse, hd, hx, hy]
          · simp [secret_data, pyIn, pyGetD, specCanon, specShapeA, specShapeB, specShapeC,
              specShapeD, jGet?, Option.orElse, hd, hx, hy]
        | pyNone => simp [wsEnv] at hdat
        | pyBool b => simp [wsEnv] at hdat
        | pyInt n => simp [wsEnv] at hdat
        | pyStr st => simp [wsEnv] at hdat
        | pyList ys => simp [wsEnv] at hdat
    · rw [hd] at hdec
      cases d with
      | pyDict dkvs =>
        rcases hdd : objGet? dkvs "data" with _ | dd
        · simp [secret_data, pyIn, pyGetD, truthy, specCanon, specShapeA, specShapeB,
            jGet?, Option.orElse, hd, hdd]
        · cases dd with
          | pyDict m =>
            by_cases hm : m.isEmpty
            · simp [secret_data, pyIn, pyGetD, truthy, hm, specCanon, specShapeA, specShapeB,
                jGet?, Option.orElse, hd, hdd]
            · simp [secret_data, pyIn, pyGetD, truthy, hm, specCanon, specShapeA,
                jGet?, Option.orElse, hd, hdd]
          | pyNone => simp [wsEnv, hdd] at hdec
          | pyBool b => simp [wsEnv, hdd] at hdec
          | pyInt n => simp [wsEnv, hdd] at hdec
          | pyStr st => simp [wsEnv, hdd] at hdec
          | pyList ys => simp [wsEnv, hdd] at hdec
      | pyNone => simp [wsEnv] at hdec
      | pyBool b => simp [wsEnv] at hdec
      | pyInt n => simp [wsEnv] at hdec
      | pyStr st => simp [wsEnv] at hdec
      | pyList ys => simp [wsEnv] at hdec

/-- C2 witness: the section 8 scenario secret is well shaped, the theorem
applies, and the canonical credential has private_key KEY, absent
certificate (the empty-string default) and username node. -/
theorem c2_canonicalization_order_witness :
    wellShaped c2secret = true ∧
    secret_data c2secret
      = Except.ok (PyVal.pyDict [("private_key", PyVal.pyStr "KEY"), ("username", PyVal.pyStr "node")]) ∧
    brokerCredential c2secret
      = Except.ok (BrokerOutcome.credential (PyVal.pyStr "KEY") (PyVal.pyStr "") (PyVal.pyStr "node")) :=
  ⟨by decide, (c2_canonicalization_order c2secret (by decide)).trans rfl, rfl⟩

/-- C3: when the canonicalized secret map lacks a truthy private_key
field the broker outcome is noCredentials (so the materialization block
guarded by if private_key never runs and nothing is written to disk), and
conversely every constructed credential has a truthy private key, so a
credential with an empty private key is never produced. -/
theorem c3_no_empty_key_credential :
    (∀ secret sd pk, secret_data secret = Except.ok sd →
      pyGetD sd "private_key" (PyVal.pyStr "") = Except.ok pk → truthy pk = false →
      brokerCredential secret = Except.ok BrokerOutcome.noCredentials) ∧
    (∀ secret pk cert user,
      brokerCredential secret = Except.ok (BrokerOutcome.credential pk cert user) →
      truthy pk = true) := by
  constructor
  · intro secret sd pk h1 h2 h3
    cases sd with
    | pyDict skvs =>
      simp only [pyGetD, Except.ok.injEq] at h2
      simp [brokerCredential, h1, pyGetD, h2, h3]
    | pyNone => simp [pyGetD] at h2
    | pyBool b => simp [pyGetD] at h2
    | pyInt n => simp [pyGetD] at h2
    | pyStr st => simp [pyGetD] at h2
    | pyList xs => simp [pyGetD] at h2
  · intro secret pk cert user h
    unfold brokerCredential at h
    rcases h1 : secret_data secret with e | sd <;> rw [h1] at h
    · simp at h
    · cases sd with
      | pyDict skvs =>
        simp only [pyGetD] at h
        split at h
        · rename_i hcond
          simp only [Except.ok.injEq, BrokerOutcome.credential.injEq] at h
          obtain ⟨hpk, -, -⟩ := h
          rw [← hpk]
          exact hcond
        · simp at h
      | pyNone => simp [pyGetD] at h
      | pyBool b => simp [pyGetD] at h
      | pyInt n => simp [pyGetD] at h
      | pyStr st => simp [pyGetD] at h
      | pyList xs => simp [pyGetD] at h

/-- C3 witness: the first part of the theorem at the empty secret object,
whose canonical map has no private_key entry. -/
theorem c3_no_empty_key_witness :
    secret_data (PyVal.pyDict []) = Except.ok (PyVal.pyDict []) ∧
    brokerCredential (PyVal.pyDict []) = Except.ok BrokerOutcome.noCredentials :=
  ⟨rfl, c3_no_empty_key_credential.1 (PyVal.pyDict []) (PyVal.pyDict []) (PyVal.pyStr "") rfl rfl rfl⟩

/-- A malformed marker line (no token after its final colon) aborts the
registry loop: the accumulated dict so far is returned, whatever the
accumulator and whatever follows. -/
theorem targetLoop_abort (bad : String) (post : List String)
    (hb : (pyInStr "claude-ssh:" bad || pyInStr "gemini-ssh:" bad) = true)
    (ht : lineTok bad = none) :
    ∀ (pre : List String) (acc : List (String × String)),
      targetLoop acc (pre ++ bad :: post) = targetLoop acc pre := by
  intro pre
  induction pre with
  | nil =>
    intro acc
    rw [Bool.or_eq_true] at hb
    by_cases hc : pyInStr "claude-ssh:" bad
    · simp [targetLoop, hc, ht]
    · rcases hb with h | h
      · exact absurd h hc
      · simp [targetLoop, hc, h, ht]
  | cons p rest ih =>
    intro acc
    simp only [List.cons_append, targetLoop]
    by_cases hc : pyInStr "claude-ssh:" p
    · rcases hl : lineTok p with _ | t
      · simp [hc, hl]
      · simp [hc, hl, ih]
    · by_cases hg : pyInStr "gemini-ssh:" p
      · rcases hl : lineTok p with _ | t
        · simp [hc, hg, hl]
        · simp [hc, hg, hl, ih]
      · simp [hc, hg, ih]

/-- C10: a marker line with no token after its final colon stops registry
parsing at that line; the resolver returns exactly the targets parsed
from the earlier lines, as a total function (the caught IndexError never
escapes), and every line after the malformed one is dropped. -/
theorem c10_registry_abort (pre : List String) (bad : String) (post : List String)
    (hb : (pyInStr "claude-ssh:" bad || pyInStr "gemini-ssh:" bad) = true)
    (ht : lineTok bad = none) :
    get_target_ids true (pre ++ bad :: post) = get_target_ids true pre := by
  simp only [get_target_ids, if_true]
  exact targetLoop_abort bad post hb ht pre []

/-- C10 witness: a registry with a tokenless gemini marker line between
two well-formed claude lines resolves exactly as the prefix alone. -/
theorem c10_registry_abort_witness :
    (pyInStr "claude-ssh:" "gemini-ssh:" || pyInStr "gemini-ssh:" "gemini-ssh:") = true ∧
    lineTok "gemini-ssh:" = none ∧
    get_target_ids true ["claude-ssh: keep1", "gemini-ssh:", "claude-ssh: drop2"]
      = get_target_ids true ["claude-ssh: keep1"] ∧
    get_target_ids true ["claude-ssh: keep1"] = [("claude", "keep1")] :=
  ⟨by decide, by decide,
   c10_registry_abort ["claude-ssh: keep1"] "gemini-ssh:" ["claude-ssh: drop2"]
     (by decide) (by decide),
   by decide⟩
